import Mathlib

/-!
Shallow embedding of the SoilMonitorRev2 plant monitor core, translated from the
C sources:

* the BLE command/response protocol engine
  (inline implementation in src/main/components/ble/ble_manager.h:
  gatt_svr_access_command_cb, process_ble_command and its handlers),
* the minute/daily ring-buffer store (data_buffer implementation),
* the plant-condition decision engine (plant_manager.c),
* the persisted plant-profile loader (nvs_config implementation).

Modelling conventions: C floats are modelled as rationals (exact ordered-field
arithmetic; every comparison the claims exercise is order-theoretic), machine
bytes and C strings as lists of naturals, and stateful code as explicit state
passing.  External collaborators (the NimBLE stack, the NVS key-value flash,
the WiFi driver, the wall clock) are modelled by explicit environment records
carrying the results their calls would return; each environment field is named
after the call it stands for.
-/

/-! ## Protocol engine: constants (ble_manager.h) -/

/-- Response status code RESP_STATUS_SUCCESS. -/
def RESP_STATUS_SUCCESS : Nat := 0x00

/-- Response status code RESP_STATUS_ERROR. -/
def RESP_STATUS_ERROR : Nat := 0x01

/-- Response status code RESP_STATUS_INVALID_COMMAND. -/
def RESP_STATUS_INVALID_COMMAND : Nat := 0x02

/-- Response status code RESP_STATUS_INVALID_PARAMETER. -/
def RESP_STATUS_INVALID_PARAMETER : Nat := 0x03

/-- NimBLE ATT protocol error BLE_ATT_ERR_INVALID_ATTR_VALUE_LEN, the value the
command-characteristic access callback returns for malformed writes. -/
def BLE_ATT_ERR_INVALID_ATTR_VALUE_LEN : Nat := 0x0d

/-- Size in bytes of the packed ble_command_packet_t header
(command_id u8, sequence_num u8, data_length u16le). -/
def SIZEOF_BLE_COMMAND_PACKET : Nat := 4

/-- Size in bytes of the packed ble_response_packet_t header
(response_id u8, status_code u8, sequence_num u8, data_length u16le). -/
def SIZEOF_BLE_RESPONSE_PACKET : Nat := 5

/-- sizeof(soil_data_t) under the Rev3 build (value is ABI-dependent and not
load-bearing for any claim: it only feeds response data_length fields the
claims never constrain). -/
def SIZEOF_SOIL_DATA : Nat := 84

/-- sizeof(system_status_t), packed: five u32 fields plus four u8 fields. -/
def SIZEOF_SYSTEM_STATUS : Nat := 24

/-- sizeof(plant_profile_t): char[32] name, five floats and one int. -/
def SIZEOF_PLANT_PROFILE : Nat := 56

/-- sizeof(device_info_t), packed: char[32] + char[16] + char[16] + two u32. -/
def SIZEOF_DEVICE_INFO : Nat := 72

/-- sizeof(time_data_request_t), packed: one struct tm (nine 32-bit ints). -/
def SIZEOF_TIME_DATA_REQUEST : Nat := 36

/-- sizeof(time_data_response_t), packed: struct tm plus four floats. -/
def SIZEOF_TIME_DATA_RESPONSE : Nat := 52

/-- sizeof(wifi_config_data_t), packed: char ssid[32] + char password[64]. -/
def SIZEOF_WIFI_CONFIG_DATA : Nat := 96

/-- Command id CMD_GET_SENSOR_DATA. -/
def CMD_GET_SENSOR_DATA : Nat := 0x01

/-- Command id CMD_GET_SYSTEM_STATUS. -/
def CMD_GET_SYSTEM_STATUS : Nat := 0x02

/-- Command id CMD_SET_PLANT_PROFILE. -/
def CMD_SET_PLANT_PROFILE : Nat := 0x03

/-- Command id CMD_SYSTEM_RESET. -/
def CMD_SYSTEM_RESET : Nat := 0x05

/-- Command id CMD_GET_DEVICE_INFO. -/
def CMD_GET_DEVICE_INFO : Nat := 0x06

/-- Command id CMD_GET_TIME_DATA. -/
def CMD_GET_TIME_DATA : Nat := 0x0a

/-- Command id CMD_GET_SWITCH_STATUS. -/
def CMD_GET_SWITCH_STATUS : Nat := 0x0b

/-- Command id CMD_GET_PLANT_PROFILE. -/
def CMD_GET_PLANT_PROFILE : Nat := 0x0c

/-- Command id CMD_SET_WIFI_CONFIG. -/
def CMD_SET_WIFI_CONFIG : Nat := 0x0d

/-- Command id CMD_GET_WIFI_CONFIG. -/
def CMD_GET_WIFI_CONFIG : Nat := 0x0e

/-- Command id CMD_WIFI_CONNECT. -/
def CMD_WIFI_CONNECT : Nat := 0x0f

/-- Command id CMD_GET_TIMEZONE. -/
def CMD_GET_TIMEZONE : Nat := 0x10

/-- Command id CMD_SYNC_TIME. -/
def CMD_SYNC_TIME : Nat := 0x11

/-- Command id CMD_WIFI_DISCONNECT. -/
def CMD_WIFI_DISCONNECT : Nat := 0x12

/-- Command id CMD_SAVE_WIFI_CONFIG. -/
def CMD_SAVE_WIFI_CONFIG : Nat := 0x13

/-- Command id CMD_SAVE_PLANT_PROFILE. -/
def CMD_SAVE_PLANT_PROFILE : Nat := 0x14

/-- Command id CMD_SET_TIMEZONE. -/
def CMD_SET_TIMEZONE : Nat := 0x15

/-- Command id CMD_SAVE_TIMEZONE. -/
def CMD_SAVE_TIMEZONE : Nat := 0x16

/-- Command id CMD_GET_SENSOR_DATA_V2. -/
def CMD_GET_SENSOR_DATA_V2 : Nat := 0x17

/-! ## Protocol engine: data types -/

/-- esp_err_t values the embedded code distinguishes. -/
inductive EspErr where
  | ok
  | fail
  | notFound
  | invalidArg
  | invalidState
  | invalidSize
deriving DecidableEq, Repr

/-- A parsed ble_command_packet_t. -/
structure BleCommandFrame where
  commandId : Nat
  sequenceNum : Nat
  dataLength : Nat
  payload : List Nat
deriving DecidableEq, Repr

/-- The header of a ble_response_packet_t as the handlers fill it in
(the data bytes are modelled separately where a claim needs them). -/
structure BleResponse where
  responseId : Nat
  statusCode : Nat
  sequenceNum : Nat
  dataLength : Nat
deriving DecidableEq, Repr

/-- Results of the external calls the command handlers make (NimBLE, NVS, the
WiFi driver, the time-sync manager, the data buffer, the switch input).  One
field per call site, so a handler's control flow is a function of this record. -/
structure BleEnv where
  /-- data_buffer_get_latest_minute_data returns ESP_OK. -/
  latestDataOk : Bool
  /-- nvs_config_save_plant_profile returns ESP_OK. -/
  saveProfileOk : Bool
  /-- plant_manager_get_profile returns a non-null pointer. -/
  profileAvailable : Bool
  /-- find_data_by_time / data_buffer_get_minute_data finds the requested slot. -/
  timeDataFound : Bool
  /-- esp_wifi_set_config returns ESP_OK. -/
  wifiSetOk : Bool
  /-- wifi_manager_is_connected. -/
  wifiConnected : Bool
  /-- wifi_manager_get_ap_info returns ESP_OK. -/
  apInfoOk : Bool
  /-- the connected AP SSID equals the configured SSID. -/
  ssidMatches : Bool
  /-- wifi_manager_start returns ESP_OK. -/
  wifiStartOk : Bool
  /-- time_sync_manager_start returns ESP_OK. -/
  syncStartOk : Bool
  /-- wifi_manager_stop returns ESP_OK. -/
  wifiStopOk : Bool
  /-- nvs_config_save_wifi_config returns ESP_OK. -/
  saveWifiOk : Bool
  /-- time_sync_manager_set_timezone returns ESP_OK. -/
  setTimezoneOk : Bool
  /-- time_sync_manager_get_timezone returns a non-null pointer. -/
  timezonePresent : Bool
  /-- nvs_config_save_timezone returns ESP_OK. -/
  saveTimezoneOk : Bool
  /-- switch_input_is_pressed. -/
  switchPressed : Bool
  /-- strlen of the timezone string returned by time_sync_manager_get_timezone. -/
  timezoneLen : Nat
  /-- bytes of g_wifi_config.sta.ssid up to its terminating zero. -/
  storedSsid : List Nat
  /-- bytes of g_wifi_config.sta.password up to its terminating zero. -/
  storedPassword : List Nat
deriving DecidableEq, Repr

/-- An all-success environment used for concrete evaluations. -/
def defaultBleEnv : BleEnv where
  latestDataOk := true
  saveProfileOk := true
  profileAvailable := true
  timeDataFound := true
  wifiSetOk := true
  wifiConnected := true
  apInfoOk := true
  ssidMatches := true
  wifiStartOk := true
  syncStartOk := true
  wifiStopOk := true
  saveWifiOk := true
  setTimezoneOk := true
  timezonePresent := true
  saveTimezoneOk := true
  switchPressed := false
  timezoneLen := 8
  storedSsid := [0x68, 0x6f, 0x6d, 0x65]
  storedPassword := [0x61, 0x62, 0x63, 0x64, 0x65, 0x66]

/-- Parse the raw bytes written to the command characteristic as a packed
ble_command_packet_t: command_id at offset 0, sequence_num at offset 1,
data_length as a little-endian u16 at offset 2, payload from offset 4. -/
def parse_ble_command (bytes : List Nat) : BleCommandFrame where
  commandId := bytes.getD 0 0
  sequenceNum := bytes.getD 1 0
  dataLength := bytes.getD 2 0 + 256 * bytes.getD 3 0
  payload := bytes.drop 4

/-! ## Protocol engine: command handlers (header-level effects) -/

/-- handle_get_sensor_data: on a missing latest sample the response carries
RESP_STATUS_ERROR and the handler propagates the buffer error code. -/
def handle_get_sensor_data (seq : Nat) (env : BleEnv) : EspErr × BleResponse :=
  if env.latestDataOk then
    (.ok, ⟨CMD_GET_SENSOR_DATA, RESP_STATUS_SUCCESS, seq, SIZEOF_SOIL_DATA⟩)
  else
    (.notFound, ⟨CMD_GET_SENSOR_DATA, RESP_STATUS_ERROR, seq, 0⟩)

/-- handle_get_sensor_data_v2: same shape as handle_get_sensor_data with
response id CMD_GET_SENSOR_DATA_V2. -/
def handle_get_sensor_data_v2 (seq : Nat) (env : BleEnv) : EspErr × BleResponse :=
  if env.latestDataOk then
    (.ok, ⟨CMD_GET_SENSOR_DATA_V2, RESP_STATUS_SUCCESS, seq, SIZEOF_SOIL_DATA⟩)
  else
    (.notFound, ⟨CMD_GET_SENSOR_DATA_V2, RESP_STATUS_ERROR, seq, 0⟩)

/-- handle_get_system_status: unconditionally SUCCESS with a packed
system_status_t payload. -/
def handle_get_system_status (seq : Nat) : EspErr × BleResponse :=
  (.ok, ⟨CMD_GET_SYSTEM_STATUS, RESP_STATUS_SUCCESS, seq, SIZEOF_SYSTEM_STATUS⟩)

/-- handle_set_plant_profile: rejects a payload whose length differs from
sizeof(plant_profile_t), otherwise saves and reports the save result. -/
def handle_set_plant_profile (dataLength seq : Nat) (env : BleEnv) :
    EspErr × BleResponse :=
  if dataLength ≠ SIZEOF_PLANT_PROFILE then
    (.ok, ⟨CMD_SET_PLANT_PROFILE, RESP_STATUS_INVALID_PARAMETER, seq, 0⟩)
  else if env.saveProfileOk then
    (.ok, ⟨CMD_SET_PLANT_PROFILE, RESP_STATUS_SUCCESS, seq, 0⟩)
  else
    (.ok, ⟨CMD_SET_PLANT_PROFILE, RESP_STATUS_ERROR, seq, 0⟩)

/-- handle_get_plant_profile: SUCCESS with the profile bytes when the active
profile pointer is non-null, ERROR otherwise. -/
def handle_get_plant_profile (seq : Nat) (env : BleEnv) : EspErr × BleResponse :=
  if env.profileAvailable then
    (.ok, ⟨CMD_GET_PLANT_PROFILE, RESP_STATUS_SUCCESS, seq, SIZEOF_PLANT_PROFILE⟩)
  else
    (.ok, ⟨CMD_GET_PLANT_PROFILE, RESP_STATUS_ERROR, seq, 0⟩)

/-- handle_get_device_info: unconditionally SUCCESS with a device_info_t
payload. -/
def handle_get_device_info (seq : Nat) : EspErr × BleResponse :=
  (.ok, ⟨CMD_GET_DEVICE_INFO, RESP_STATUS_SUCCESS, seq, SIZEOF_DEVICE_INFO⟩)

/-- handle_get_time_data: INVALID_PARAMETER (and return ESP_FAIL) on a request
whose length differs from sizeof(time_data_request_t); otherwise SUCCESS with
the found slot or ERROR when the lookup misses. -/
def handle_get_time_data (dataLength seq : Nat) (env : BleEnv) :
    EspErr × BleResponse :=
  if dataLength ≠ SIZEOF_TIME_DATA_REQUEST then
    (.fail, ⟨CMD_GET_TIME_DATA, RESP_STATUS_INVALID_PARAMETER, seq, 0⟩)
  else if env.timeDataFound then
    (.ok, ⟨CMD_GET_TIME_DATA, RESP_STATUS_SUCCESS, seq, SIZEOF_TIME_DATA_RESPONSE⟩)
  else
    (.ok, ⟨CMD_GET_TIME_DATA, RESP_STATUS_ERROR, seq, 0⟩)

/-- handle_set_wifi_config: rejects a payload whose length differs from
sizeof(wifi_config_data_t), otherwise applies the config and reports the
esp_wifi_set_config result. -/
def handle_set_wifi_config (dataLength seq : Nat) (env : BleEnv) :
    EspErr × BleResponse :=
  if dataLength ≠ SIZEOF_WIFI_CONFIG_DATA then
    (.ok, ⟨CMD_SET_WIFI_CONFIG, RESP_STATUS_INVALID_PARAMETER, seq, 0⟩)
  else if env.wifiSetOk then
    (.ok, ⟨CMD_SET_WIFI_CONFIG, RESP_STATUS_SUCCESS, seq, 0⟩)
  else
    (.ok, ⟨CMD_SET_WIFI_CONFIG, RESP_STATUS_ERROR, seq, 0⟩)

/-- handle_get_wifi_config: unconditionally SUCCESS with a wifi_config_data_t
payload (the payload bytes are modelled by handle_get_wifi_config_data). -/
def handle_get_wifi_config (seq : Nat) : EspErr × BleResponse :=
  (.ok, ⟨CMD_GET_WIFI_CONFIG, RESP_STATUS_SUCCESS, seq, SIZEOF_WIFI_CONFIG_DATA⟩)

/-- handle_wifi_connect: SUCCESS when already connected to the configured SSID,
otherwise start a connection and report the wifi_manager_start result. -/
def handle_wifi_connect (seq : Nat) (env : BleEnv) : EspErr × BleResponse :=
  if env.wifiConnected && env.apInfoOk && env.ssidMatches then
    (.ok, ⟨CMD_WIFI_CONNECT, RESP_STATUS_SUCCESS, seq, 0⟩)
  else if env.wifiStartOk then
    (.ok, ⟨CMD_WIFI_CONNECT, RESP_STATUS_SUCCESS, seq, 0⟩)
  else
    (.ok, ⟨CMD_WIFI_CONNECT, RESP_STATUS_ERROR, seq, 0⟩)

/-- handle_get_timezone: unconditionally SUCCESS, data is the timezone string
including its terminating zero byte. -/
def handle_get_timezone (seq : Nat) (env : BleEnv) : EspErr × BleResponse :=
  (.ok, ⟨CMD_GET_TIMEZONE, RESP_STATUS_SUCCESS, seq, env.timezoneLen + 1⟩)

/-- handle_sync_time: reports the time_sync_manager_start result. -/
def handle_sync_time (seq : Nat) (env : BleEnv) : EspErr × BleResponse :=
  if env.syncStartOk then
    (.ok, ⟨CMD_SYNC_TIME, RESP_STATUS_SUCCESS, seq, 0⟩)
  else
    (.ok, ⟨CMD_SYNC_TIME, RESP_STATUS_ERROR, seq, 0⟩)

/-- handle_wifi_disconnect: reports the wifi_manager_stop result. -/
def handle_wifi_disconnect (seq : Nat) (env : BleEnv) : EspErr × BleResponse :=
  if env.wifiStopOk then
    (.ok, ⟨CMD_WIFI_DISCONNECT, RESP_STATUS_SUCCESS, seq, 0⟩)
  else
    (.ok, ⟨CMD_WIFI_DISCONNECT, RESP_STATUS_ERROR, seq, 0⟩)

/-- handle_save_wifi_config: reports the nvs_config_save_wifi_config result. -/
def handle_save_wifi_config (seq : Nat) (env : BleEnv) : EspErr × BleResponse :=
  if env.saveWifiOk then
    (.ok, ⟨CMD_SAVE_WIFI_CONFIG, RESP_STATUS_SUCCESS, seq, 0⟩)
  else
    (.ok, ⟨CMD_SAVE_WIFI_CONFIG, RESP_STATUS_ERROR, seq, 0⟩)

/-- handle_save_plant_profile: ERROR when no active profile exists, otherwise
reports the nvs_config_save_plant_profile result. -/
def handle_save_plant_profile (seq : Nat) (env : BleEnv) : EspErr × BleResponse :=
  if !env.profileAvailable then
    (.ok, ⟨CMD_SAVE_PLANT_PROFILE, RESP_STATUS_ERROR, seq, 0⟩)
  else if env.saveProfileOk then
    (.ok, ⟨CMD_SAVE_PLANT_PROFILE, RESP_STATUS_SUCCESS, seq, 0⟩)
  else
    (.ok, ⟨CMD_SAVE_PLANT_PROFILE, RESP_STATUS_ERROR, seq, 0⟩)

/-- handle_set_timezone: rejects a zero-length or over-64-byte timezone string
with INVALID_PARAMETER, otherwise reports the set-timezone result. -/
def handle_set_timezone (dataLength seq : Nat) (env : BleEnv) :
    EspErr × BleResponse :=
  if dataLength = 0 ∨ dataLength > 64 then
    (.ok, ⟨CMD_SET_TIMEZONE, RESP_STATUS_INVALID_PARAMETER, seq, 0⟩)
  else if env.setTimezoneOk then
    (.ok, ⟨CMD_SET_TIMEZONE, RESP_STATUS_SUCCESS, seq, 0⟩)
  else
    (.ok, ⟨CMD_SET_TIMEZONE, RESP_STATUS_ERROR, seq, 0⟩)

/-- handle_save_timezone: ERROR when the current timezone pointer is null,
otherwise reports the nvs_config_save_timezone result. -/
def handle_save_timezone (seq : Nat) (env : BleEnv) : EspErr × BleResponse :=
  if !env.timezonePresent then
    (.ok, ⟨CMD_SAVE_TIMEZONE, RESP_STATUS_ERROR, seq, 0⟩)
  else if env.saveTimezoneOk then
    (.ok, ⟨CMD_SAVE_TIMEZONE, RESP_STATUS_SUCCESS, seq, 0⟩)
  else
    (.ok, ⟨CMD_SAVE_TIMEZONE, RESP_STATUS_ERROR, seq, 0⟩)

/-! ## Protocol engine: dispatch -/

/-- Result of process_ble_command: either a normal return (with the esp_err_t
value and the response left in the buffer), or the CMD_SYSTEM_RESET path that
sends its response itself and then restarts the device. -/
inductive ProcResult where
  | normal (err : EspErr) (resp : BleResponse)
  | resetDevice (resp : BleResponse)
deriving DecidableEq, Repr

/-- process_ble_command: the switch over command_id.  Unknown ids fall through
to the default case, which fills an INVALID_COMMAND response and returns
ESP_FAIL. -/
def process_ble_command (cmd : BleCommandFrame) (env : BleEnv) : ProcResult :=
  if cmd.commandId = CMD_GET_SENSOR_DATA then
    let r := handle_get_sensor_data cmd.sequenceNum env; .normal r.1 r.2
  else if cmd.commandId = CMD_GET_SYSTEM_STATUS then
    let r := handle_get_system_status cmd.sequenceNum; .normal r.1 r.2
  else if cmd.commandId = CMD_SET_PLANT_PROFILE then
    let r := handle_set_plant_profile cmd.dataLength cmd.sequenceNum env
    .normal r.1 r.2
  else if cmd.commandId = CMD_GET_PLANT_PROFILE then
    let r := handle_get_plant_profile cmd.sequenceNum env; .normal r.1 r.2
  else if cmd.commandId = CMD_SYSTEM_RESET then
    .resetDevice ⟨CMD_SYSTEM_RESET, RESP_STATUS_SUCCESS, cmd.sequenceNum, 0⟩
  else if cmd.commandId = CMD_GET_DEVICE_INFO then
    let r := handle_get_device_info cmd.sequenceNum; .normal r.1 r.2
  else if cmd.commandId = CMD_GET_TIME_DATA then
    let r := handle_get_time_data cmd.dataLength cmd.sequenceNum env
    .normal r.1 r.2
  else if cmd.commandId = CMD_GET_SWITCH_STATUS then
    .normal .ok ⟨CMD_GET_SWITCH_STATUS, RESP_STATUS_SUCCESS, cmd.sequenceNum, 1⟩
  else if cmd.commandId = CMD_SET_WIFI_CONFIG then
    let r := handle_set_wifi_config cmd.dataLength cmd.sequenceNum env
    .normal r.1 r.2
  else if cmd.commandId = CMD_GET_WIFI_CONFIG then
    let r := handle_get_wifi_config cmd.sequenceNum; .normal r.1 r.2
  else if cmd.commandId = CMD_WIFI_CONNECT then
    let r := handle_wifi_connect cmd.sequenceNum env; .normal r.1 r.2
  else if cmd.commandId = CMD_GET_TIMEZONE then
    let r := handle_get_timezone cmd.sequenceNum env; .normal r.1 r.2
  else if cmd.commandId = CMD_SYNC_TIME then
    let r := handle_sync_time cmd.sequenceNum env; .normal r.1 r.2
  else if cmd.commandId = CMD_WIFI_DISCONNECT then
    let r := handle_wifi_disconnect cmd.sequenceNum env; .normal r.1 r.2
  else if cmd.commandId = CMD_SAVE_WIFI_CONFIG then
    let r := handle_save_wifi_config cmd.sequenceNum env; .normal r.1 r.2
  else if cmd.commandId = CMD_SAVE_PLANT_PROFILE then
    let r := handle_save_plant_profile cmd.sequenceNum env; .normal r.1 r.2
  else if cmd.commandId = CMD_SET_TIMEZONE then
    let r := handle_set_timezone cmd.dataLength cmd.sequenceNum env
    .normal r.1 r.2
  else if cmd.commandId = CMD_SAVE_TIMEZONE then
    let r := handle_save_timezone cmd.sequenceNum env; .normal r.1 r.2
  else if cmd.commandId = CMD_GET_SENSOR_DATA_V2 then
    let r := handle_get_sensor_data_v2 cmd.sequenceNum env; .normal r.1 r.2
  else
    .normal .fail
      ⟨cmd.commandId, RESP_STATUS_INVALID_COMMAND, cmd.sequenceNum, 0⟩

/-- Observable outcome of one invocation of the command-characteristic access
callback: an ATT-layer error return, a dropped write (busy flag set), or a
response frame handed to send_response_notification (possibly followed by a
device reset in the CMD_SYSTEM_RESET path). -/
inductive CbOutcome where
  | attError (code : Nat)
  | dropped
  | emitted (resp : BleResponse)
  | emittedThenReset (resp : BleResponse)
deriving DecidableEq, Repr

/-- The response frame that leaves gatt_svr_access_command_cb once dispatch has
run: the handler's response, except that whenever process_ble_command returns a
value other than ESP_OK the callback overwrites the buffer with a frame whose
status_code is RESP_STATUS_ERROR (id, sequence and zero data_length kept). -/
def finish_ble_response (cmd : BleCommandFrame) (env : BleEnv) : CbOutcome :=
  match process_ble_command cmd env with
  | .resetDevice resp => .emittedThenReset resp
  | .normal err resp =>
    if err = EspErr.ok then .emitted resp
    else .emitted ⟨cmd.commandId, RESP_STATUS_ERROR, cmd.sequenceNum, 0⟩

/-- gatt_svr_access_command_cb on a characteristic write, starting from a given
g_command_processing flag: a write while busy is silently dropped; a write
shorter than the packed header, or whose total length disagrees with
4 + data_length, is refused with BLE_ATT_ERR_INVALID_ATTR_VALUE_LEN; otherwise
the frame is dispatched and exactly one response leaves the callback. -/
def gatt_svr_access_command_cb (busy : Bool) (bytes : List Nat) (env : BleEnv) :
    CbOutcome :=
  if busy then .dropped
  else if bytes.length < SIZEOF_BLE_COMMAND_PACKET then
    .attError BLE_ATT_ERR_INVALID_ATTR_VALUE_LEN
  else
    let cmd := parse_ble_command bytes
    if bytes.length ≠ SIZEOF_BLE_COMMAND_PACKET + cmd.dataLength then
      .attError BLE_ATT_ERR_INVALID_ATTR_VALUE_LEN
    else finish_ble_response cmd env

/-- The response frame an outcome delivers to the client, if any. -/
def emittedResponse : CbOutcome → Option BleResponse
  | .attError _ => none
  | .dropped => none
  | .emitted resp => some resp
  | .emittedThenReset resp => some resp

/-! ## Protocol engine: busy flag as a step machine

The access callback is synchronous C, but the busy flag g_command_processing
exists precisely because a second write can be delivered while the first is
still inside its handler.  The callback is therefore decomposed at that
boundary: an arrival either is dropped (busy), refused (malformed) or starts
processing; a separate completion event finishes the dispatch and emits the
response.  The flag being set corresponds exactly to the processing state. -/

/-- Events of the command engine: a characteristic write arriving, or the
in-flight handler returning. -/
inductive EngineEvent where
  | arriveWrite (bytes : List Nat) (env : BleEnv)
  | handlerReturns
deriving DecidableEq, Repr

/-- Engine control state: idle (busy flag clear) or processing a command
(busy flag set, the frame and its environment captured). -/
inductive EngineState where
  | idle
  | processing (cmd : BleCommandFrame) (env : BleEnv)
deriving DecidableEq, Repr

/-- One engine transition, following gatt_svr_access_command_cb: a write while
processing is silently dropped with no output and no state change; a malformed
write is refused at the ATT layer; a well-formed write enters processing; the
handler returning emits exactly the response finish_ble_response computes. -/
def engine_step : EngineState → EngineEvent → EngineState × List CbOutcome
  | .idle, .arriveWrite bytes env =>
    if bytes.length < SIZEOF_BLE_COMMAND_PACKET then
      (.idle, [.attError BLE_ATT_ERR_INVALID_ATTR_VALUE_LEN])
    else
      let cmd := parse_ble_command bytes
      if bytes.length ≠ SIZEOF_BLE_COMMAND_PACKET + cmd.dataLength then
        (.idle, [.attError BLE_ATT_ERR_INVALID_ATTR_VALUE_LEN])
      else (.processing cmd env, [])
  | .processing cmd env, .arriveWrite _ _ => (.processing cmd env, [])
  | .processing cmd env, .handlerReturns => (.idle, [finish_ble_response cmd env])
  | .idle, .handlerReturns => (.idle, [])

/-- Run the engine over a list of events, collecting outputs in order. -/
def engine_run : EngineState → List EngineEvent → EngineState × List CbOutcome
  | st, [] => (st, [])
  | st, ev :: evs =>
    let r := engine_step st ev
    let rest := engine_run r.1 evs
    (rest.1, r.2 ++ rest.2)

/-- A byte sequence that passes both length checks of the callback. -/
def validFrameBytes (bytes : List Nat) : Prop :=
  SIZEOF_BLE_COMMAND_PACKET ≤ bytes.length ∧
  bytes.length = SIZEOF_BLE_COMMAND_PACKET + (parse_ble_command bytes).dataLength

instance (bytes : List Nat) : Decidable (validFrameBytes bytes) := by
  unfold validFrameBytes; infer_instance

/-! ## GetLinkConfig secret masking (handle_get_wifi_config body)

The handler zero-fills a wifi_config_data_t, strncpy-copies the SSID (at most
31 bytes), and when the stored password is non-empty strncpy-copies its first
three bytes and strcat-appends the literal three asterisks.  C strings are
lists of bytes; the zero terminator is represented by the zero padding. -/

/-- strlen: number of bytes before the first zero. -/
def cstrlen (buf : List Nat) : Nat := (buf.takeWhile (fun c => c ≠ 0)).length

/-- Overwrite the buffer starting at the given offset with the given bytes,
keeping the rest (all in-bounds at every use below). -/
def writeBytes (buf : List Nat) (off : Nat) (src : List Nat) : List Nat :=
  buf.take off ++ src ++ buf.drop (off + src.length)

/-- strncpy(dst, src, n) into a zero-filled buffer of the given capacity: the
first min(strlen src, n) source bytes land at offset 0, the rest stays zero
(strncpy's own zero padding coincides with the zero fill). -/
def strncpy_zeroed (cap : Nat) (src : List Nat) (n : Nat) : List Nat :=
  let s := ((src.takeWhile (fun c => c ≠ 0)).take n)
  s ++ List.replicate (cap - s.length) 0

/-- strcat(dst, s): the bytes of s are written at strlen dst. -/
def strcat_buf (dst : List Nat) (s : List Nat) : List Nat :=
  writeBytes dst (cstrlen dst) s

/-- The three-byte literal of three asterisks. -/
def STAR_STAR_STAR : List Nat := [0x2a, 0x2a, 0x2a]

/-- The 32-byte ssid field of the wifi_config_data_t the handler builds:
strncpy of the stored SSID, at most 31 bytes, zero padded. -/
def handle_get_wifi_config_ssid_field (env : BleEnv) : List Nat :=
  strncpy_zeroed 32 env.storedSsid 31

/-- The 64-byte password field of the wifi_config_data_t the handler builds:
all zero when the stored password is empty; otherwise strncpy of its first
three bytes followed by strcat of the asterisk literal. -/
def handle_get_wifi_config_password_field (env : BleEnv) : List Nat :=
  if 0 < cstrlen env.storedPassword then
    strcat_buf (strncpy_zeroed 64 env.storedPassword 3) STAR_STAR_STAR
  else
    List.replicate 64 0

/-- The 96 payload bytes of the GetLinkConfig response: ssid field then
password field. -/
def handle_get_wifi_config_data (env : BleEnv) : List Nat :=
  handle_get_wifi_config_ssid_field env ++ handle_get_wifi_config_password_field env

/-! ## Calendar timestamps and sensor records -/

/-- The fields of struct tm the core compares (tm_wday, tm_yday and tm_isdst
are copied around by the source but never tested). -/
structure Tm where
  tm_sec : Int
  tm_min : Int
  tm_hour : Int
  tm_mday : Int
  tm_mon : Int
  tm_year : Int
deriving DecidableEq, Repr

/-- Monotone stand-in for mktime: a linear encoding that is strictly monotone
in the lexicographic calendar order, which is the order mktime induces on
calendar-valid struct tm values under one fixed timezone.  Only the induced
order is ever used. -/
def tm_time_key (t : Tm) : Int :=
  ((((t.tm_year * 12 + t.tm_mon) * 31 + t.tm_mday) * 24 + t.tm_hour) * 60
      + t.tm_min) * 60 + t.tm_sec

/-- is_same_day from the data-buffer implementation. -/
def is_same_day (t1 t2 : Tm) : Bool :=
  decide (t1.tm_year = t2.tm_year) && decide (t1.tm_mon = t2.tm_mon) &&
    decide (t1.tm_mday = t2.tm_mday)

/-- is_same_minute from the data-buffer implementation. -/
def is_same_minute (t1 t2 : Tm) : Bool :=
  decide (t1.tm_year = t2.tm_year) && decide (t1.tm_mon = t2.tm_mon) &&
    decide (t1.tm_mday = t2.tm_mday) && decide (t1.tm_hour = t2.tm_hour) &&
    decide (t1.tm_min = t2.tm_min)

/-- copy_tm_date_only: keep the date, zero the time of day. -/
def copy_tm_date_only (src : Tm) : Tm :=
  { src with tm_hour := 0, tm_min := 0, tm_sec := 0 }

/-- One slot of the minute ring buffer (minute_data_t, Rev3 layout). -/
structure MinuteData where
  timestamp : Tm
  temperature : ℚ
  humidity : ℚ
  lux : ℚ
  soil_moisture : ℚ
  soil_temperature1 : ℚ
  soil_temperature2 : ℚ
  soil_moisture_capacitance : List ℚ
  valid : Bool
deriving DecidableEq, Repr

/-- A composite sample as handed to the ring store (soil_data_t, the fields
copied by data_buffer_add_minute_data). -/
structure SoilData where
  datetime : Tm
  lux : ℚ
  temperature : ℚ
  humidity : ℚ
  soil_moisture : ℚ
  soil_temperature1 : ℚ
  soil_temperature2 : ℚ
  soil_moisture_capacitance : List ℚ
  sensor_error : Bool
deriving DecidableEq, Repr

/-- One slot of the daily summary buffer (daily_summary_data_t). -/
structure DailySummaryData where
  date : Tm
  max_temperature : ℚ
  min_temperature : ℚ
  avg_temperature : ℚ
  avg_humidity : ℚ
  avg_lux : ℚ
  avg_soil_moisture : ℚ
  max_soil_moisture : ℚ
  min_soil_moisture : ℚ
  max_soil_temperature : ℚ
  min_soil_temperature : ℚ
  avg_soil_temperature : ℚ
  valid_samples : Nat
  complete : Bool
deriving DecidableEq, Repr

/-- plant_profile_t. -/
structure PlantProfile where
  plant_name : List Nat
  soil_dry_threshold : ℚ
  soil_wet_threshold : ℚ
  soil_dry_days_for_watering : Int
  temp_high_limit : ℚ
  temp_low_limit : ℚ
  watering_threshold : ℚ
deriving DecidableEq, Repr

/-- plant_condition_t. -/
inductive PlantCondition where
  | SOIL_DRY
  | SOIL_WET
  | NEEDS_WATERING
  | WATERING_COMPLETED
  | TEMP_TOO_HIGH
  | TEMP_TOO_LOW
  | ERROR_CONDITION
deriving DecidableEq, Repr

/-! ## Decision engine (plant_manager.c)

The two data-buffer queries the engine makes are passed in as arguments: the
list returned by data_buffer_get_recent_minute_data(1, ...) and the result of
data_buffer_get_recent_daily_summaries(profile->soil_dry_days_for_watering,
...), so the engine is a function of what the store would hand it. -/

/-- Insert one record into a list kept sorted by timestamp, newest first
(one step of the qsort with compare_time_desc). -/
def insert_time_desc (x : MinuteData) : List MinuteData → List MinuteData
  | [] => [x]
  | y :: ys =>
    if tm_time_key x.timestamp ≤ tm_time_key y.timestamp then
      y :: insert_time_desc x ys
    else x :: y :: ys

/-- Sort newest-first by timestamp (the qsort(compare_time_desc) call;
ties are broken stably, which qsort leaves unspecified — no claim involves
equal timestamps). -/
def sort_time_desc : List MinuteData → List MinuteData
  | [] => []
  | x :: xs => insert_time_desc x (sort_time_desc xs)

/-- detect_watering_event: with fewer than three records in the past-hour
window the rule is skipped; otherwise the soil moisture of the record at index
2 of the newest-first ordering (two samples ago) is compared against the
current moisture, and a drop of at least the threshold detects watering. -/
def detect_watering_event (hour_data : List MinuteData)
    (current_moisture threshold_mv : ℚ) : Bool :=
  if hour_data.length < 3 then false
  else
    match (sort_time_desc hour_data).get? 2 with
    | some two_ago =>
        decide (threshold_mv ≤ two_ago.soil_moisture - current_moisture)
    | none => false

/-- determine_plant_condition: temperature limits first, then the two
watering-completed rules, then the consecutive-dry-days advisory, then the
dry/wet thresholds, else the memoised previous condition. -/
def determine_plant_condition (profile : PlantProfile) (latest : MinuteData)
    (recent_minute_data : List MinuteData)
    (recent_daily_summaries : Option (List DailySummaryData))
    (last_condition : PlantCondition) : PlantCondition :=
  let soil_moisture := latest.soil_moisture
  let temperature := latest.temperature
  if profile.temp_high_limit ≤ temperature then .TEMP_TOO_HIGH
  else if temperature ≤ profile.temp_low_limit then .TEMP_TOO_LOW
  else if detect_watering_event recent_minute_data soil_moisture
      profile.watering_threshold then .WATERING_COMPLETED
  else if (last_condition = .SOIL_DRY ∨ last_condition = .NEEDS_WATERING) ∧
      soil_moisture ≤ profile.soil_wet_threshold then .WATERING_COMPLETED
  else
    let needs_watering_fires : Bool :=
      match recent_daily_summaries with
      | some summaries =>
          decide (profile.soil_dry_days_for_watering ≤ (summaries.length : Int)) &&
          decide (profile.soil_dry_days_for_watering ≤
            ((summaries.filter fun s =>
                decide (profile.soil_dry_threshold ≤ s.avg_soil_moisture)).length : Int))
      | none => false
    if needs_watering_fires then .NEEDS_WATERING
    else if profile.soil_dry_threshold ≤ soil_moisture then .SOIL_DRY
    else if soil_moisture ≤ profile.soil_wet_threshold then .SOIL_WET
    else last_condition

/-! ## Ring-buffer store (data_buffer implementation) -/

/-- DATA_BUFFER_MINUTES_PER_DAY. -/
def DATA_BUFFER_MINUTES_PER_DAY : Nat := 24 * 60

/-- DATA_BUFFER_DAYS_PER_MONTH. -/
def DATA_BUFFER_DAYS_PER_MONTH : Nat := 30

/-- The zeroed Tm of a freshly initialised slot. -/
def empty_tm : Tm := ⟨0, 0, 0, 0, 0, 0⟩

/-- A minute slot after data_buffer_init: zero fields, valid = false. -/
def empty_minute_data : MinuteData :=
  ⟨empty_tm, 0, 0, 0, 0, 0, 0, [0, 0, 0, 0], false⟩

/-- A daily slot after data_buffer_init: zero fields, complete = false. -/
def empty_daily_summary : DailySummaryData :=
  ⟨empty_tm, 0, 0, 0, 0, 0, 0, 0, 0, 0, 0, 0, 0, false⟩

/-- The state owned by the data-buffer component: both ring buffers and both
write indices. -/
structure DataBufferState where
  minute_buffer : List MinuteData
  daily_buffer : List DailySummaryData
  minute_write_index : Nat
  daily_write_index : Nat
deriving DecidableEq, Repr

/-- data_buffer_init: both buffers invalidated, indices reset. -/
def data_buffer_init : DataBufferState where
  minute_buffer := List.replicate DATA_BUFFER_MINUTES_PER_DAY empty_minute_data
  daily_buffer := List.replicate DATA_BUFFER_DAYS_PER_MONTH empty_daily_summary
  minute_write_index := 0
  daily_write_index := 0

/-- get_minute_index_by_time: the minute-of-day index a timestamp would hash
to.  Defined by the source but never used on the insert path. -/
def get_minute_index_by_time (timestamp : Tm) : Nat :=
  ((timestamp.tm_hour * 60 + timestamp.tm_min) %
    (DATA_BUFFER_MINUTES_PER_DAY : Int)).toNat

/-- get_daily_index_by_date: the (month * 31 + day) mod 30 date hash. -/
def get_daily_index_by_date (date : Tm) : Nat :=
  ((date.tm_mon * 31 + date.tm_mday) % (DATA_BUFFER_DAYS_PER_MONTH : Int)).toNat

/-- Accumulator of the daily-summary scan in calculate_daily_summary, one
field per local of the C function. -/
structure DailyAcc where
  count : Nat
  temp_sum : ℚ
  min_temp : ℚ
  max_temp : ℚ
  humidity_sum : ℚ
  lux_sum : ℚ
  soil_sum : ℚ
  min_soil : ℚ
  max_soil : ℚ
  soil_temp_sum : ℚ
  min_soil_temp : ℚ
  max_soil_temp : ℚ
deriving DecidableEq, Repr

/-- The initial accumulator values of calculate_daily_summary. -/
def daily_acc_init : DailyAcc where
  count := 0
  temp_sum := 0
  min_temp := 999
  max_temp := -999
  humidity_sum := 0
  lux_sum := 0
  soil_sum := 0
  min_soil := 999999
  max_soil := -999999
  soil_temp_sum := 0
  min_soil_temp := 999
  max_soil_temp := -999

/-- One iteration of the calculate_daily_summary scan: a valid slot of the
matching date contributes to every sum, min and max. -/
def daily_acc_step (date : Tm) (acc : DailyAcc) (e : MinuteData) : DailyAcc :=
  if e.valid && is_same_day date e.timestamp then
    { count := acc.count + 1
      temp_sum := acc.temp_sum + e.temperature
      min_temp := if e.temperature < acc.min_temp then e.temperature else acc.min_temp
      max_temp := if acc.max_temp < e.temperature then e.temperature else acc.max_temp
      humidity_sum := acc.humidity_sum + e.humidity
      lux_sum := acc.lux_sum + e.lux
      soil_sum := acc.soil_sum + e.soil_moisture
      min_soil := if e.soil_moisture < acc.min_soil then e.soil_moisture else acc.min_soil
      max_soil := if acc.max_soil < e.soil_moisture then e.soil_moisture else acc.max_soil
      soil_temp_sum := acc.soil_temp_sum + e.soil_temperature1
      min_soil_temp :=
        if e.soil_temperature1 < acc.min_soil_temp then e.soil_temperature1
        else acc.min_soil_temp
      max_soil_temp :=
        if acc.max_soil_temp < e.soil_temperature1 then e.soil_temperature1
        else acc.max_soil_temp }
  else acc

/-- calculate_daily_summary: scan the minute buffer for valid slots of the
given date; with no matching slot the function reports not-found, otherwise it
yields the aggregate summary, complete when at least 1200 samples matched. -/
def calculate_daily_summary (minute_buffer : List MinuteData) (date : Tm) :
    Option DailySummaryData :=
  let acc := minute_buffer.foldl (daily_acc_step date) daily_acc_init
  if 0 < acc.count then
    some
      { date := copy_tm_date_only date
        max_temperature := acc.max_temp
        min_temperature := acc.min_temp
        avg_temperature := acc.temp_sum / (acc.count : ℚ)
        avg_humidity := acc.humidity_sum / (acc.count : ℚ)
        avg_lux := acc.lux_sum / (acc.count : ℚ)
        avg_soil_moisture := acc.soil_sum / (acc.count : ℚ)
        max_soil_moisture := acc.max_soil
        min_soil_moisture := acc.min_soil
        max_soil_temperature := acc.max_soil_temp
        min_soil_temperature := acc.min_soil_temp
        avg_soil_temperature := acc.soil_temp_sum / (acc.count : ℚ)
        valid_samples := acc.count
        complete := decide (1200 ≤ acc.count) }
  else none

/-- data_buffer_add_minute_data: the sample is written into the slot at the
current write index (valid := true), the write index advances modulo 1440, and
the daily summary of the sample's date is recomputed and stored at its hashed
daily index.  No lookup of an existing slot with the same minute happens on
this path. -/
def data_buffer_add_minute_data (st : DataBufferState) (sensor_data : SoilData) :
    DataBufferState :=
  let entry : MinuteData :=
    { timestamp := sensor_data.datetime
      temperature := sensor_data.temperature
      humidity := sensor_data.humidity
      lux := sensor_data.lux
      soil_moisture := sensor_data.soil_moisture
      soil_temperature1 := sensor_data.soil_temperature1
      soil_temperature2 := sensor_data.soil_temperature2
      soil_moisture_capacitance := sensor_data.soil_moisture_capacitance
      valid := true }
  let mb := st.minute_buffer.set st.minute_write_index entry
  let st1 : DataBufferState :=
    { st with
      minute_buffer := mb
      minute_write_index := (st.minute_write_index + 1) % DATA_BUFFER_MINUTES_PER_DAY }
  match calculate_daily_summary mb sensor_data.datetime with
  | some summary =>
      let daily_index := get_daily_index_by_date sensor_data.datetime
      if daily_index < DATA_BUFFER_DAYS_PER_MONTH then
        { st1 with daily_buffer := st1.daily_buffer.set daily_index summary }
      else st1
  | none => st1

/-- Number of valid minute slots whose timestamp falls in the same minute as
the given one (used to state the no-duplicate-minutes invariant). -/
def count_valid_same_minute (st : DataBufferState) (t : Tm) : Nat :=
  (st.minute_buffer.filter fun e => e.valid && is_same_minute t e.timestamp).length

/-! ## Persisted plant-profile loader (nvs_config implementation)

The NVS key-value flash is an out-of-scope external collaborator; its two calls
on the load path (nvs_open and nvs_get_blob) are modelled by the outcome they
return.  nvs_get_blob is called with required_size preset to
sizeof(plant_profile_t) and, per its contract, updates required_size to the
stored blob's size. -/

/-- Compiled default MOISTURE_DRY_THRESHOLD (common_types.h of this build). -/
def MOISTURE_DRY_THRESHOLD : ℚ := 1

/-- Compiled default MOISTURE_WET_THRESHOLD. -/
def MOISTURE_WET_THRESHOLD : ℚ := 2

/-- Compiled default DRY_WARNING_DAYS. -/
def DRY_WARNING_DAYS : Int := 3

/-- Compiled default WATERING_DETECTION_THRESHOLD (aliases the dry threshold). -/
def WATERING_DETECTION_THRESHOLD : ℚ := MOISTURE_DRY_THRESHOLD

/-- Compiled default TEMP_HIGH_THRESHOLD. -/
def TEMP_HIGH_THRESHOLD : ℚ := 30

/-- Compiled default TEMP_LOW_THRESHOLD. -/
def TEMP_LOW_THRESHOLD : ℚ := 15

/-- The bytes of the factory profile name "Succulent Plant". -/
def SUCCULENT_PLANT_NAME : List Nat :=
  [0x53, 0x75, 0x63, 0x63, 0x75, 0x6c, 0x65, 0x6e, 0x74, 0x20,
   0x50, 0x6c, 0x61, 0x6e, 0x74]

/-- nvs_config_set_default_plant_profile: the factory default profile. -/
def nvs_config_set_default_plant_profile : PlantProfile where
  plant_name := SUCCULENT_PLANT_NAME
  soil_dry_threshold := MOISTURE_DRY_THRESHOLD
  soil_wet_threshold := MOISTURE_WET_THRESHOLD
  soil_dry_days_for_watering := DRY_WARNING_DAYS
  temp_high_limit := TEMP_HIGH_THRESHOLD
  temp_low_limit := TEMP_LOW_THRESHOLD
  watering_threshold := WATERING_DETECTION_THRESHOLD

/-- Outcome of nvs_open on the config namespace. -/
inductive NvsOpenResult where
  | ok
  | notFound
  | otherErr
deriving DecidableEq, Repr

/-- Outcome of nvs_get_blob on the profile key: the blob was read (with the
stored size written back into required_size), the key was absent, or the read
failed with some other error (required_size as the call left it). -/
inductive NvsBlobResult where
  | found (profile : PlantProfile) (required_size : Nat)
  | notFound
  | readErr (required_size : Nat)
deriving DecidableEq, Repr

/-- The flash outcomes one call to nvs_config_load_plant_profile observes. -/
structure NvsProfileEnv where
  openResult : NvsOpenResult
  blobResult : NvsBlobResult
  /-- nvs_config_save_plant_profile succeeds (its failure is only logged). -/
  saveOk : Bool
deriving DecidableEq, Repr

/-- What nvs_config_load_plant_profile hands back to the caller: the esp_err_t
return, the profile written through the out pointer, and how many times it
called nvs_config_save_plant_profile. -/
structure LoadProfileResult where
  err : EspErr
  profile : PlantProfile
  save_writes : Nat
deriving DecidableEq, Repr

/-- nvs_config_load_plant_profile (non-null out pointer): a missing namespace
or key, and a size-mismatched blob, synthesise the factory default, persist it
and return ESP_OK; any other open or read failure synthesises the default and
returns ESP_OK without persisting; a well-sized read returns the stored
profile. -/
def nvs_config_load_plant_profile (env : NvsProfileEnv) : LoadProfileResult :=
  match env.openResult with
  | .notFound => ⟨.ok, nvs_config_set_default_plant_profile, 1⟩
  | .otherErr => ⟨.ok, nvs_config_set_default_plant_profile, 0⟩
  | .ok =>
    match env.blobResult with
    | .notFound => ⟨.ok, nvs_config_set_default_plant_profile, 1⟩
    | .found profile required_size =>
        if required_size ≠ SIZEOF_PLANT_PROFILE then
          ⟨.ok, nvs_config_set_default_plant_profile, 1⟩
        else ⟨.ok, profile, 0⟩
    | .readErr required_size =>
        if required_size ≠ SIZEOF_PLANT_PROFILE then
          ⟨.ok, nvs_config_set_default_plant_profile, 1⟩
        else ⟨.ok, nvs_config_set_default_plant_profile, 0⟩

/-! ## Fixtures for concrete evaluations -/

/-- The response a ProcResult carries (both constructors). -/
def proc_resp : ProcResult → BleResponse
  | .normal _ resp => resp
  | .resetDevice resp => resp

/-- A plant profile with the example thresholds of the specification: dry at
2500, wet at 1000, three dry days, limits 35 and 10, watering delta 200. -/
def test_profile : PlantProfile :=
  ⟨SUCCULENT_PLANT_NAME, 2500, 1000, 3, 35, 10, 200⟩

/-- Timestamp 2025-01-15 12:34:00 (tm encoding: year 125, month 0, day 15). -/
def tm_12_34 : Tm := ⟨0, 34, 12, 15, 0, 125⟩

/-- Timestamp 2025-01-15 12:35:00. -/
def tm_12_35 : Tm := ⟨0, 35, 12, 15, 0, 125⟩

/-- Timestamp 2025-01-15 12:36:00. -/
def tm_12_36 : Tm := ⟨0, 36, 12, 15, 0, 125⟩

/-- A valid minute record at the given time with the given soil moisture. -/
def mk_minute (t : Tm) (soil : ℚ) : MinuteData :=
  ⟨t, 22, 48, 320, soil, 0, 0, [0, 0, 0, 0], true⟩

/-- A three-sample window with moistures 4000, 4000, 3800 over three
consecutive minutes. -/
def test_window : List MinuteData :=
  [mk_minute tm_12_34 4000, mk_minute tm_12_35 4000, mk_minute tm_12_36 3800]

/-- The newest sample of test_window. -/
def test_latest : MinuteData := mk_minute tm_12_36 3800

/-- A latest sample whose soil moisture sits exactly on the dry threshold of
test_profile. -/
def test_latest_dry : MinuteData := mk_minute tm_12_36 2500

/-- A complete daily summary for the given date whose soil-moisture average is
the given value. -/
def mk_summary (d : Tm) (avg : ℚ) : DailySummaryData :=
  ⟨copy_tm_date_only d, 25, 20, 22, 48, 320, avg, avg, avg, 0, 0, 0, 1200, true⟩

/-- Three consecutive complete daily summaries whose soil-moisture averages
all exceed the dry threshold of test_profile. -/
def test_summaries : List DailySummaryData :=
  [mk_summary ⟨0, 0, 0, 12, 0, 125⟩ 2600, mk_summary ⟨0, 0, 0, 13, 0, 125⟩ 2600,
   mk_summary ⟨0, 0, 0, 14, 0, 125⟩ 2600]

/-- A composite sample at 2025-01-15 12:34. -/
def test_sample : SoilData :=
  ⟨tm_12_34, 320, 22, 48, 1800, 0, 0, [0, 0, 0, 0], false⟩

/-- An environment whose stored link password has only two characters. -/
def shortPasswordEnv : BleEnv :=
  { defaultBleEnv with storedPassword := [0x61, 0x62] }

/-! ## Theorems -/

/-- Claim C1: for a validated frame whose command_id is not in the dispatch
table (0xFF, seq 3, len 0), process_ble_command builds the INVALID_COMMAND
(0x02) response the specification requires — but it returns ESP_FAIL, and
gatt_svr_access_command_cb then overwrites the buffer, so the single response
frame that actually leaves the engine carries response_id 0xFF, sequence_num 3
and data_length 0 as claimed, yet status_code RESP_STATUS_ERROR (0x01) instead
of RESP_STATUS_INVALID_COMMAND (0x02). -/
theorem C1_unknown_command_status_clobbered :
    gatt_svr_access_command_cb false [0xff, 3, 0, 0] defaultBleEnv
      = .emitted ⟨0xff, RESP_STATUS_ERROR, 3, 0⟩ ∧
    process_ble_command (parse_ble_command [0xff, 3, 0, 0]) defaultBleEnv
      = .normal .fail ⟨0xff, RESP_STATUS_INVALID_COMMAND, 3, 0⟩ := by
  constructor <;> decide

/-- Claim C3 (counterexample): a 3-byte frame (shorter than the 4-byte header)
and a frame whose data_length field (5) disagrees with its received payload
(1 byte) are both refused with the ATT error
BLE_ATT_ERR_INVALID_ATTR_VALUE_LEN, and no response frame — in particular none
with status INVALID_PARAMETER — is emitted. -/
theorem C3_counterexample_no_invalid_parameter_response :
    gatt_svr_access_command_cb false [0x01, 7, 0] defaultBleEnv
      = .attError BLE_ATT_ERR_INVALID_ATTR_VALUE_LEN ∧
    emittedResponse (gatt_svr_access_command_cb false [0x01, 7, 0] defaultBleEnv)
      = none ∧
    gatt_svr_access_command_cb false [0x01, 7, 5, 0, 0xaa] defaultBleEnv
      = .attError BLE_ATT_ERR_INVALID_ATTR_VALUE_LEN ∧
    emittedResponse
      (gatt_svr_access_command_cb false [0x01, 7, 5, 0, 0xaa] defaultBleEnv)
      = none := by
  refine ⟨by decide, by decide, by decide, by decide⟩

/-- Claim C3 (amended): every received frame shorter than the fixed header
length, and every frame whose data_length field disagrees with the number of
bytes actually received, is rejected at the transport layer with ATT error
BLE_ATT_ERR_INVALID_ATTR_VALUE_LEN; no protocol response frame is emitted for
it. -/
theorem C3_malformed_frames_rejected_at_att_layer (bytes : List Nat)
    (env : BleEnv)
    (h : bytes.length < SIZEOF_BLE_COMMAND_PACKET ∨
      bytes.length ≠
        SIZEOF_BLE_COMMAND_PACKET + (parse_ble_command bytes).dataLength) :
    gatt_svr_access_command_cb false bytes env
      = .attError BLE_ATT_ERR_INVALID_ATTR_VALUE_LEN ∧
    emittedResponse (gatt_svr_access_command_cb false bytes env) = none := by
  have hres : gatt_svr_access_command_cb false bytes env
      = .attError BLE_ATT_ERR_INVALID_ATTR_VALUE_LEN := by
    unfold gatt_svr_access_command_cb
    rcases h with h | h
    · simp [h]
    · by_cases h4 : bytes.length < SIZEOF_BLE_COMMAND_PACKET
      · simp [h4]
      · simp [h4, h]
  exact ⟨hres, by rw [hres]; rfl⟩

/-- Claim C3 (witness): the amended rejection theorem applied to the concrete
3-byte frame. -/
theorem C3_malformed_frames_witness :
    gatt_svr_access_command_cb false [0x01, 7, 0] defaultBleEnv
      = .attError BLE_ATT_ERR_INVALID_ATTR_VALUE_LEN ∧
    emittedResponse (gatt_svr_access_command_cb false [0x01, 7, 0] defaultBleEnv)
      = none :=
  C3_malformed_frames_rejected_at_att_layer [0x01, 7, 0] defaultBleEnv
    (Or.inl (by decide))

/-- Claim C5: the busy flag makes command dispatch at-most-one-in-flight.
First conjunct: a write arriving while a command is being processed is
silently dropped — no output, no state change.  Second conjunct: when two
well-formed frames arrive such that the second arrives before the first's
handler returns, exactly one response is emitted, namely the first frame's. -/
theorem C5_busy_drop_at_most_one_in_flight :
    (∀ (cmd : BleCommandFrame) (env : BleEnv) (bytes : List Nat) (env2 : BleEnv),
      engine_step (.processing cmd env) (.arriveWrite bytes env2)
        = (.processing cmd env, [])) ∧
    (∀ (b1 : List Nat) (e1 : BleEnv) (b2 : List Nat) (e2 : BleEnv),
      validFrameBytes b1 → validFrameBytes b2 →
      engine_run .idle
          [.arriveWrite b1 e1, .arriveWrite b2 e2, .handlerReturns]
        = (.idle, [finish_ble_response (parse_ble_command b1) e1])) := by
  constructor
  · intro cmd env bytes env2
    rfl
  · intro b1 e1 b2 e2 h1 _h2
    obtain ⟨hlen, heq⟩ := h1
    simp [engine_run, engine_step, Nat.not_lt.mpr hlen, heq]

/-- Claim C5 (witness): the second conjunct applied to two concrete
well-formed frames (GetDeviceInfo seq 9 arriving first, GetSensorData seq 2
arriving while it is processed): only the first frame's response is emitted. -/
theorem C5_busy_drop_witness :
    engine_run .idle
        [.arriveWrite [0x06, 9, 0, 0] defaultBleEnv,
         .arriveWrite [0x01, 2, 0, 0] defaultBleEnv,
         .handlerReturns]
      = (.idle, [finish_ble_response (parse_ble_command [0x06, 9, 0, 0])
          defaultBleEnv]) :=
  C5_busy_drop_at_most_one_in_flight.2 [0x06, 9, 0, 0] defaultBleEnv
    [0x01, 2, 0, 0] defaultBleEnv (by decide) (by decide)

/-- Every response process_ble_command leaves in the buffer — across every
known command id, every handler error path and the unknown-id default — echoes
the command's id and sequence number. -/
theorem process_ble_command_echoes_id_seq (cmd : BleCommandFrame) (env : BleEnv) :
    (proc_resp (process_ble_command cmd env)).responseId = cmd.commandId ∧
    (proc_resp (process_ble_command cmd env)).sequenceNum = cmd.sequenceNum := by
  simp only [process_ble_command]
  by_cases h1 : cmd.commandId = CMD_GET_SENSOR_DATA
  · rw [if_pos h1]; unfold handle_get_sensor_data; split_ifs <;> exact ⟨h1.symm, rfl⟩
  rw [if_neg h1]
  by_cases h2 : cmd.commandId = CMD_GET_SYSTEM_STATUS
  · rw [if_pos h2]; exact ⟨h2.symm, rfl⟩
  rw [if_neg h2]
  by_cases h3 : cmd.commandId = CMD_SET_PLANT_PROFILE
  · rw [if_pos h3]; unfold handle_set_plant_profile; split_ifs <;> exact ⟨h3.symm, rfl⟩
  rw [if_neg h3]
  by_cases h4 : cmd.commandId = CMD_GET_PLANT_PROFILE
  · rw [if_pos h4]; unfold handle_get_plant_profile; split_ifs <;> exact ⟨h4.symm, rfl⟩
  rw [if_neg h4]
  by_cases h5 : cmd.commandId = CMD_SYSTEM_RESET
  · rw [if_pos h5]; exact ⟨h5.symm, rfl⟩
  rw [if_neg h5]
  by_cases h6 : cmd.commandId = CMD_GET_DEVICE_INFO
  · rw [if_pos h6]; exact ⟨h6.symm, rfl⟩
  rw [if_neg h6]
  by_cases h7 : cmd.commandId = CMD_GET_TIME_DATA
  · rw [if_pos h7]; unfold handle_get_time_data; split_ifs <;> exact ⟨h7.symm, rfl⟩
  rw [if_neg h7]
  by_cases h8 : cmd.commandId = CMD_GET_SWITCH_STATUS
  · rw [if_pos h8]; exact ⟨h8.symm, rfl⟩
  rw [if_neg h8]
  by_cases h9 : cmd.commandId = CMD_SET_WIFI_CONFIG
  · rw [if_pos h9]; unfold handle_set_wifi_config; split_ifs <;> exact ⟨h9.symm, rfl⟩
  rw [if_neg h9]
  by_cases h10 : cmd.commandId = CMD_GET_WIFI_CONFIG
  · rw [if_pos h10]; exact ⟨h10.symm, rfl⟩
  rw [if_neg h10]
  by_cases h11 : cmd.commandId = CMD_WIFI_CONNECT
  · rw [if_pos h11]; unfold handle_wifi_connect; split_ifs <;> exact ⟨h11.symm, rfl⟩
  rw [if_neg h11]
  by_cases h12 : cmd.commandId = CMD_GET_TIMEZONE
  · rw [if_pos h12]; exact ⟨h12.symm, rfl⟩
  rw [if_neg h12]
  by_cases h13 : cmd.commandId = CMD_SYNC_TIME
  · rw [if_pos h13]; unfold handle_sync_time; split_ifs <;> exact ⟨h13.symm, rfl⟩
  rw [if_neg h13]
  by_cases h14 : cmd.commandId = CMD_WIFI_DISCONNECT
  · rw [if_pos h14]; unfold handle_wifi_disconnect; split_ifs <;> exact ⟨h14.symm, rfl⟩
  rw [if_neg h14]
  by_cases h15 : cmd.commandId = CMD_SAVE_WIFI_CONFIG
  · rw [if_pos h15]; unfold handle_save_wifi_config; split_ifs <;> exact ⟨h15.symm, rfl⟩
  rw [if_neg h15]
  by_cases h16 : cmd.commandId = CMD_SAVE_PLANT_PROFILE
  · rw [if_pos h16]; unfold handle_save_plant_profile; split_ifs <;> exact ⟨h16.symm, rfl⟩
  rw [if_neg h16]
  by_cases h17 : cmd.commandId = CMD_SET_TIMEZONE
  · rw [if_pos h17]; unfold handle_set_timezone; split_ifs <;> exact ⟨h17.symm, rfl⟩
  rw [if_neg h17]
  by_cases h18 : cmd.commandId = CMD_SAVE_TIMEZONE
  · rw [if_pos h18]; unfold handle_save_timezone; split_ifs <;> exact ⟨h18.symm, rfl⟩
  rw [if_neg h18]
  by_cases h19 : cmd.commandId = CMD_GET_SENSOR_DATA_V2
  · rw [if_pos h19]; unfold handle_get_sensor_data_v2; split_ifs <;> exact ⟨h19.symm, rfl⟩
  rw [if_neg h19]
  exact ⟨rfl, rfl⟩

/-- Claim C6: whenever the command callback emits a response frame (every known
command id, every handler error path, and unknown ids — including the
CMD_SYSTEM_RESET path, which notifies before restarting), that frame's
response_id equals the received frame's command_id byte and its sequence_num
equals the received sequence_num byte. -/
theorem C6_response_echoes_command_id_and_sequence (bytes : List Nat)
    (env : BleEnv) (r : BleResponse)
    (h : emittedResponse (gatt_svr_access_command_cb false bytes env) = some r) :
    r.responseId = bytes.getD 0 0 ∧ r.sequenceNum = bytes.getD 1 0 := by
  unfold gatt_svr_access_command_cb at h
  rw [if_neg (by simp)] at h
  by_cases h4 : bytes.length < SIZEOF_BLE_COMMAND_PACKET
  · rw [if_pos h4] at h
    exact absurd h (by simp [emittedResponse])
  rw [if_neg h4] at h
  by_cases hlen :
      bytes.length ≠ SIZEOF_BLE_COMMAND_PACKET + (parse_ble_command bytes).dataLength
  · rw [if_pos hlen] at h
    exact absurd h (by simp [emittedResponse])
  rw [if_neg hlen] at h
  have hid : (parse_ble_command bytes).commandId = bytes.getD 0 0 := rfl
  have hseq : (parse_ble_command bytes).sequenceNum = bytes.getD 1 0 := rfl
  have hmain := process_ble_command_echoes_id_seq (parse_ble_command bytes) env
  unfold finish_ble_response at h
  cases hproc : process_ble_command (parse_ble_command bytes) env with
  | normal err resp =>
    rw [hproc] at h hmain
    dsimp only at h
    by_cases hok : err = EspErr.ok
    · rw [if_pos hok] at h
      simp only [emittedResponse, Option.some.injEq] at h
      subst h
      exact ⟨hmain.1.trans hid, hmain.2.trans hseq⟩
    · rw [if_neg hok] at h
      simp only [emittedResponse, Option.some.injEq] at h
      subst h
      exact ⟨hid, hseq⟩
  | resetDevice resp =>
    rw [hproc] at h hmain
    dsimp only at h
    simp only [emittedResponse, Option.some.injEq] at h
    subst h
    exact ⟨hmain.1.trans hid, hmain.2.trans hseq⟩

/-- Claim C6 (witness): the echo theorem applied to a concrete GetDeviceInfo
frame with sequence number 9. -/
theorem C6_response_echo_witness :
    (⟨CMD_GET_DEVICE_INFO, RESP_STATUS_SUCCESS, 9, SIZEOF_DEVICE_INFO⟩ :
        BleResponse).responseId = ([0x06, 9, 0, 0] : List Nat).getD 0 0 ∧
    (⟨CMD_GET_DEVICE_INFO, RESP_STATUS_SUCCESS, 9, SIZEOF_DEVICE_INFO⟩ :
        BleResponse).sequenceNum = ([0x06, 9, 0, 0] : List Nat).getD 1 0 :=
  C6_response_echoes_command_id_and_sequence [0x06, 9, 0, 0] defaultBleEnv
    ⟨CMD_GET_DEVICE_INFO, RESP_STATUS_SUCCESS, 9, SIZEOF_DEVICE_INFO⟩ (by decide)

/-- takeWhile of a nonzero byte string keeps all of it. -/
theorem takeWhile_ne_zero_eq_self (s : List Nat) (h : ∀ c ∈ s, c ≠ 0) :
    (s.takeWhile fun c => c ≠ 0) = s := by
  induction s with
  | nil => rfl
  | cons a t ih =>
    have ha : a ≠ 0 := h a (List.mem_cons_self a t)
    simp only [List.takeWhile_cons, decide_eq_true ha, if_pos]
    exact congrArg (a :: ·) (ih fun c hc => h c (List.mem_cons_of_mem a hc))

/-- takeWhile of a nonzero byte string followed by zero padding keeps exactly
the string. -/
theorem takeWhile_ne_zero_append_zeros (s : List Nat) (h : ∀ c ∈ s, c ≠ 0)
    (k : Nat) :
    ((s ++ List.replicate k 0).takeWhile fun c => c ≠ 0) = s := by
  induction s with
  | nil =>
    cases k with
    | zero => rfl
    | succ m => simp [List.replicate_succ, List.takeWhile_cons]
  | cons a t ih =>
    have ha : a ≠ 0 := h a (List.mem_cons_self a t)
    simp only [List.cons_append, List.takeWhile_cons, decide_eq_true ha, if_pos]
    exact congrArg (a :: ·) (ih fun c hc => h c (List.mem_cons_of_mem a hc))

/-- strlen of a nonzero byte string with zero padding is the string's length. -/
theorem cstrlen_append_zeros (s : List Nat) (h : ∀ c ∈ s, c ≠ 0) (k : Nat) :
    cstrlen (s ++ List.replicate k 0) = s.length := by
  unfold cstrlen
  rw [takeWhile_ne_zero_append_zeros s h k]

/-- strncpy of a nonzero source into a zeroed buffer: the source prefix of
length at most n followed by zero padding. -/
theorem strncpy_zeroed_eq (cap : Nat) (src : List Nat) (n : Nat)
    (h : ∀ c ∈ src, c ≠ 0) :
    strncpy_zeroed cap src n
      = src.take n ++ List.replicate (cap - (src.take n).length) 0 := by
  unfold strncpy_zeroed
  rw [takeWhile_ne_zero_eq_self src h]

/-- strcat onto a zero-padded buffer appends directly after the existing
string. -/
theorem strcat_buf_padded (s : List Nat) (h : ∀ c ∈ s, c ≠ 0) (cap : Nat)
    (tail : List Nat) :
    strcat_buf (s ++ List.replicate (cap - s.length) 0) tail
      = s ++ tail ++ List.replicate (cap - s.length - tail.length) 0 := by
  unfold strcat_buf writeBytes
  rw [cstrlen_append_zeros s h]
  rw [List.take_left]
  rw [List.drop_append]
  rw [List.drop_replicate]

/-- Claim C9: the GetLinkConfig (0x0E) payload returns the stored SSID
unmasked (zero padded to its 32-byte field), and masks the secret: an empty
stored password yields an all-zero field, a non-empty one yields its first
three bytes followed by the literal three asterisks and zero padding (so
"abcdef" comes back as "abc***" and a zero byte). -/
theorem C9_get_wifi_config_masked_secret (env : BleEnv)
    (hs : ∀ c ∈ env.storedSsid, c ≠ 0) (hslen : env.storedSsid.length ≤ 31)
    (hp : ∀ c ∈ env.storedPassword, c ≠ 0) :
    handle_get_wifi_config_ssid_field env
      = env.storedSsid ++ List.replicate (32 - env.storedSsid.length) 0 ∧
    (env.storedPassword = [] →
      handle_get_wifi_config_password_field env = List.replicate 64 0) ∧
    (env.storedPassword ≠ [] →
      handle_get_wifi_config_password_field env
        = env.storedPassword.take 3 ++ STAR_STAR_STAR ++
            List.replicate (61 - (env.storedPassword.take 3).length) 0) := by
  refine ⟨?_, ?_, ?_⟩
  · unfold handle_get_wifi_config_ssid_field
    rw [strncpy_zeroed_eq 32 env.storedSsid 31 hs,
      List.take_of_length_le hslen]
  · intro hempty
    unfold handle_get_wifi_config_password_field
    rw [if_neg]
    rw [hempty]
    decide
  · intro hne
    have hlen0 : 0 < cstrlen env.storedPassword := by
      unfold cstrlen
      rw [takeWhile_ne_zero_eq_self env.storedPassword hp]
      exact List.length_pos.mpr hne
    have htake : ∀ c ∈ env.storedPassword.take 3, c ≠ 0 := fun c hc =>
      hp c (List.mem_of_mem_take hc)
    unfold handle_get_wifi_config_password_field
    rw [if_pos hlen0]
    rw [strncpy_zeroed_eq 64 env.storedPassword 3 hp]
    rw [strcat_buf_padded (env.storedPassword.take 3) htake 64 STAR_STAR_STAR]
    have h61 : 64 - (env.storedPassword.take 3).length - STAR_STAR_STAR.length
        = 61 - (env.storedPassword.take 3).length := by
      have hstar : STAR_STAR_STAR.length = 3 := rfl
      have hle3 : (env.storedPassword.take 3).length ≤ 3 :=
        List.length_take_le 3 env.storedPassword
      rw [hstar]
      omega
    rw [h61]

/-- Claim C9 (witness): the masking theorem applied to the stored password
"abcdef" of the default environment: the field starts "abc***". -/
theorem C9_masked_secret_witness :
    handle_get_wifi_config_password_field defaultBleEnv
      = defaultBleEnv.storedPassword.take 3 ++ STAR_STAR_STAR ++
          List.replicate (61 - (defaultBleEnv.storedPassword.take 3).length) 0 :=
  (C9_get_wifi_config_masked_secret defaultBleEnv (by decide) (by decide)
    (by decide)).2.2 (by decide)

/-- Claim C10: a stored link password of one to three characters is disclosed
in full by GetLinkConfig: the returned field is the entire password followed
by the asterisk literal (for stored "ab" the field starts "ab***"). -/
theorem C10_short_password_disclosed_in_full (env : BleEnv)
    (hp : ∀ c ∈ env.storedPassword, c ≠ 0)
    (h1 : 1 ≤ env.storedPassword.length) (h3 : env.storedPassword.length ≤ 3) :
    handle_get_wifi_config_password_field env
      = env.storedPassword ++ STAR_STAR_STAR ++
          List.replicate (61 - env.storedPassword.length) 0 := by
  have hne : env.storedPassword ≠ [] := by
    intro hempty
    rw [hempty] at h1
    exact absurd h1 (by decide)
  have hlen0 : 0 < cstrlen env.storedPassword := by
    unfold cstrlen
    rw [takeWhile_ne_zero_eq_self env.storedPassword hp]
    exact List.length_pos.mpr hne
  have htakeall : env.storedPassword.take 3 = env.storedPassword :=
    List.take_of_length_le h3
  unfold handle_get_wifi_config_password_field
  rw [if_pos hlen0]
  rw [strncpy_zeroed_eq 64 env.storedPassword 3 hp]
  rw [htakeall]
  rw [strcat_buf_padded env.storedPassword hp 64 STAR_STAR_STAR]
  have h61 : 64 - env.storedPassword.length - STAR_STAR_STAR.length
      = 61 - env.storedPassword.length := by
    have hstar : STAR_STAR_STAR.length = 3 := rfl
    rw [hstar]
    omega
  rw [h61, List.append_assoc]

/-- Claim C10 (witness): the disclosure theorem applied to the stored two-byte
password "ab": the returned field is "ab***" then zero padding. -/
theorem C10_short_password_witness :
    handle_get_wifi_config_password_field shortPasswordEnv
      = shortPasswordEnv.storedPassword ++ STAR_STAR_STAR ++
          List.replicate (61 - shortPasswordEnv.storedPassword.length) 0 :=
  C10_short_password_disclosed_in_full shortPasswordEnv (by decide) (by decide)
    (by decide)

/-- Claim C4: with the dry-days trigger at 3, when the store hands back three
complete daily summaries whose soil-moisture averages all reach the dry
threshold, the latest sample's temperature is strictly inside the limits, no
watering event is detected (neither the drop rule nor the previous-state rule
fires — the latter cannot fire because the moisture equals the dry threshold,
which lies strictly above the wet threshold), and the latest soil moisture
equals the dry threshold, the engine returns NEEDS_WATERING: the
consecutive-dry-days rule fires before the SOIL_DRY rule that the same
moisture would also satisfy. -/
theorem C4_consecutive_dry_days_fire_before_soil_dry (profile : PlantProfile)
    (latest : MinuteData) (recent : List MinuteData)
    (summaries : List DailySummaryData) (last_condition : PlantCondition)
    (hdays : profile.soil_dry_days_for_watering = 3)
    (hlow : profile.temp_low_limit < latest.temperature)
    (hhigh : latest.temperature < profile.temp_high_limit)
    (hwater : detect_watering_event recent latest.soil_moisture
        profile.watering_threshold = false)
    (hwf : profile.soil_wet_threshold < profile.soil_dry_threshold)
    (hsoil : latest.soil_moisture = profile.soil_dry_threshold)
    (hlen : summaries.length = 3)
    (hdry : ∀ s ∈ summaries,
      profile.soil_dry_threshold ≤ s.avg_soil_moisture) :
    determine_plant_condition profile latest recent (some summaries)
        last_condition = .NEEDS_WATERING := by
  have h4 : ¬((last_condition = PlantCondition.SOIL_DRY ∨
      last_condition = PlantCondition.NEEDS_WATERING) ∧
      latest.soil_moisture ≤ profile.soil_wet_threshold) := by
    rintro ⟨-, hle⟩
    rw [hsoil] at hle
    exact absurd hle (not_le.mpr hwf)
  have hfilter :
      summaries.filter
          (fun s => decide (profile.soil_dry_threshold ≤ s.avg_soil_moisture))
        = summaries :=
    List.filter_eq_self.mpr fun s hs => decide_eq_true (hdry s hs)
  simp only [determine_plant_condition]
  rw [if_neg (not_le.mpr hhigh), if_neg (not_le.mpr hlow), hwater]
  rw [if_neg (by decide : ¬(false = true))]
  rw [if_neg h4]
  simp only [hfilter, hdays, hlen]
  rw [if_pos (by decide)]

/-- Claim C4 (witness): the advisory theorem applied to the concrete fixture:
dry-days trigger 3, three dry summaries, a latest sample at the dry threshold
with in-range temperature and an empty recent window. -/
theorem C4_consecutive_dry_days_witness :
    determine_plant_condition test_profile test_latest_dry []
        (some test_summaries) .SOIL_WET = .NEEDS_WATERING :=
  C4_consecutive_dry_days_fire_before_soil_dry test_profile test_latest_dry []
    test_summaries .SOIL_WET rfl
    (by norm_num [test_profile, test_latest_dry, mk_minute])
    (by norm_num [test_profile, test_latest_dry, mk_minute])
    rfl
    (by norm_num [test_profile])
    rfl rfl
    (by
      intro s hs
      simp only [test_summaries, List.mem_cons, List.not_mem_nil, or_false] at hs
      rcases hs with h | h | h <;> subst h <;>
        norm_num [test_profile, mk_summary])

/-- Claim C7: when the recent-minutes window holds at least three samples, the
latest temperature is strictly inside the profile limits, and the sample two
steps earlier in the newest-first ordering exceeds the current soil moisture
by at least the watering threshold, the engine classifies WATERING_COMPLETED;
and with fewer than three samples in the window the drop rule is skipped
(detect_watering_event returns false). -/
theorem C7_watering_drop_classifies_completed (profile : PlantProfile)
    (latest : MinuteData) (recent : List MinuteData)
    (summariesRet : Option (List DailySummaryData))
    (last_condition : PlantCondition) (two_ago : MinuteData)
    (hlow : profile.temp_low_limit < latest.temperature)
    (hhigh : latest.temperature < profile.temp_high_limit)
    (h3 : 3 ≤ recent.length)
    (hget : (sort_time_desc recent).get? 2 = some two_ago)
    (hdrop : profile.watering_threshold ≤
      two_ago.soil_moisture - latest.soil_moisture) :
    determine_plant_condition profile latest recent summariesRet last_condition
      = .WATERING_COMPLETED ∧
    ∀ (w : List MinuteData) (m t : ℚ), w.length < 3 →
      detect_watering_event w m t = false := by
  constructor
  · have hdet : detect_watering_event recent latest.soil_moisture
        profile.watering_threshold = true := by
      unfold detect_watering_event
      rw [if_neg (Nat.not_lt.mpr h3), hget]
      exact decide_eq_true hdrop
    simp only [determine_plant_condition]
    rw [if_neg (not_le.mpr hhigh), if_neg (not_le.mpr hlow), hdet]
    rw [if_pos rfl]
  · intro w m t hw
    unfold detect_watering_event
    rw [if_pos hw]

/-- Claim C7 (witness): the drop theorem applied to the fixture window with
moistures 4000, 4000, 3800 and watering threshold 200, plus the skip clause at
an empty window. -/
theorem C7_watering_drop_witness :
    determine_plant_condition test_profile test_latest test_window none
        .SOIL_WET = .WATERING_COMPLETED ∧
    detect_watering_event [] 0 0 = false := by
  have h := C7_watering_drop_classifies_completed test_profile test_latest
    test_window none .SOIL_WET (mk_minute tm_12_34 4000)
    (by norm_num [test_profile, test_latest, mk_minute])
    (by norm_num [test_profile, test_latest, mk_minute])
    (by norm_num [test_window])
    (by
      norm_num [test_window, sort_time_desc, insert_time_desc, tm_time_key,
        mk_minute, tm_12_34, tm_12_35, tm_12_36])
    (by norm_num [test_profile, test_latest, mk_minute])
  exact ⟨h.1, h.2 [] 0 0 (by decide)⟩

set_option maxRecDepth 10000 in
/-- Claim C2: the source inserts write-index-sequentially and never looks up
an existing slot for the same minute (get_minute_index_by_time is unused on
the insert path), so inserting the same sample twice leaves two distinct valid
slots carrying the same (year, month, day, hour, minute) timestamp — the
second insert occupies a new slot instead of replacing the first, violating
the claimed at-most-one-slot-per-minute invariant. -/
theorem C2_duplicate_minute_occupies_two_slots :
    count_valid_same_minute
        (data_buffer_add_minute_data
          (data_buffer_add_minute_data data_buffer_init test_sample)
          test_sample)
        test_sample.datetime = 2 ∧
    (data_buffer_add_minute_data
        (data_buffer_add_minute_data data_buffer_init test_sample)
        test_sample).minute_write_index = 2 := by
  constructor <;> decide

/-- Claim C8 (counterexample): when the namespace opens but nvs_get_blob fails
with a read error while the reported size still matches
sizeof(plant_profile_t) — an unreadable blob — the loader synthesises the
factory default and returns ESP_OK but performs zero persist writes,
contradicting the claim that the default is persisted in the unreadable
case. -/
theorem C8_unreadable_blob_not_persisted :
    nvs_config_load_plant_profile
        ⟨.ok, .readErr SIZEOF_PLANT_PROFILE, true⟩
      = ⟨.ok, nvs_config_set_default_plant_profile, 0⟩ := by
  decide

/-- Claim C8 (amended): loading the plant profile never fails toward the
caller: it always returns ESP_OK.  On a missing namespace, a missing blob, or
a size-mismatched blob it synthesises the factory default profile (name
"Succulent Plant", compiled default thresholds), persists it with exactly one
store write, and returns it; on any other open or read failure it synthesises
and returns the same default with success but performs no store write; a
well-sized read returns the stored profile unchanged. -/
theorem C8_load_profile_defaults_and_persists (env : NvsProfileEnv) :
    (nvs_config_load_plant_profile env).err = .ok ∧
    nvs_config_set_default_plant_profile.plant_name = SUCCULENT_PLANT_NAME ∧
    ((env.openResult = .notFound ∨
      (env.openResult = .ok ∧ env.blobResult = .notFound) ∨
      (env.openResult = .ok ∧ ∃ p s, env.blobResult = .found p s ∧
        s ≠ SIZEOF_PLANT_PROFILE) ∨
      (env.openResult = .ok ∧ ∃ s, env.blobResult = .readErr s ∧
        s ≠ SIZEOF_PLANT_PROFILE)) →
      nvs_config_load_plant_profile env
        = ⟨.ok, nvs_config_set_default_plant_profile, 1⟩) ∧
    ((env.openResult = .otherErr ∨
      (env.openResult = .ok ∧
        env.blobResult = .readErr SIZEOF_PLANT_PROFILE)) →
      nvs_config_load_plant_profile env
        = ⟨.ok, nvs_config_set_default_plant_profile, 0⟩) ∧
    (∀ p, env.openResult = .ok →
      env.blobResult = .found p SIZEOF_PLANT_PROFILE →
      nvs_config_load_plant_profile env = ⟨.ok, p, 0⟩) := by
  refine ⟨?_, rfl, ?_, ?_, ?_⟩
  · unfold nvs_config_load_plant_profile
    cases env.openResult with
    | notFound => rfl
    | otherErr => rfl
    | ok =>
      cases env.blobResult with
      | notFound => rfl
      | found p sz => dsimp only; split_ifs <;> rfl
      | readErr sz => dsimp only; split_ifs <;> rfl
  · rintro (ho | ⟨ho, hb⟩ | ⟨ho, p, sz, hb, hsz⟩ | ⟨ho, sz, hb, hsz⟩)
    · unfold nvs_config_load_plant_profile
      rw [ho]
    · unfold nvs_config_load_plant_profile
      rw [ho, hb]
    · unfold nvs_config_load_plant_profile
      rw [ho, hb]
      dsimp only
      rw [if_pos hsz]
    · unfold nvs_config_load_plant_profile
      rw [ho, hb]
      dsimp only
      rw [if_pos hsz]
  · rintro (ho | ⟨ho, hb⟩)
    · unfold nvs_config_load_plant_profile
      rw [ho]
    · unfold nvs_config_load_plant_profile
      rw [ho, hb]
      dsimp only
      rw [if_neg (by simp)]
  · intro p ho hb
    unfold nvs_config_load_plant_profile
    rw [ho, hb]
    dsimp only
    rw [if_neg (by simp)]

/-- Claim C8 (witness): the amended theorem applied to a wholly absent
namespace: the factory default is returned with success and one persist
write. -/
theorem C8_load_profile_witness :
    nvs_config_load_plant_profile ⟨.notFound, .notFound, true⟩
      = ⟨.ok, nvs_config_set_default_plant_profile, 1⟩ :=
  (C8_load_profile_defaults_and_persists ⟨.notFound, .notFound, true⟩).2.2.1
    (Or.inl rfl)
